import Mathlib

/-!
# Verification of the UniFi Protect realtime-update websocket module

A shallow embedding of `ProtectWebSocket` (src/unnamed/part_000): the binary
frame decoder (`decodeUpdatePacket` / `decodeUpdateFrame`), the packet router
inside `configureUpdatesListener`, and the connection lifecycle manager
(`launchUpdatesListener`, close handling, heartbeat timer).

Modelling conventions:
* A Node.js `Buffer` is a `List Nat` of byte values.
* A JS string is represented by its UTF-8 byte sequence (`List Nat`), so
  `buffer.toString('utf8')` is the identity on the byte list.
* A JS function that can throw is embedded in `Except Unit`; `Except.error`
  is a thrown exception, `Except.ok none` is a returned `null`.
* The external libraries `zlib.inflateSync` and `JSON.parse` are passed in as
  parameters (`inflate`, `jsonParse`); `inflate b = none` and
  `jsonParse b = none` mean the library call throws.  A concrete executable
  model of `JSON.parse` (`jsParse`, restricted to integer numerals and
  single-character string escapes) is provided for concrete evaluation.
-/

namespace Protect

/-- `UfvConstants.UPDATE_PACKET_HEADER_SIZE` (= 8). -/
def UPDATE_PACKET_HEADER_SIZE : Nat := 8

/-- `Buffer.readUInt8(off)`: the byte at `off`, throwing (here `none`) when
`off` is out of range. -/
def readUInt8 (b : List Nat) (off : Nat) : Option Nat := b.get? off

/-- `Buffer.readUInt32BE(off)`: big-endian 32-bit read at `off`, throwing
(here `none`) when fewer than four bytes are available. -/
def readUInt32BE (b : List Nat) (off : Nat) : Option Nat :=
  match b.drop off with
  | b0 :: b1 :: b2 :: b3 :: _ => some (b0 * 2 ^ 24 + b1 * 2 ^ 16 + b2 * 2 ^ 8 + b3)
  | _ => none

/-- The JSON values produced by `JSON.parse`.  Numbers are modelled as
integers (the claims under study never inspect fractional values); object
keys and strings are UTF-8 byte sequences. -/
inductive Json where
  | null : Json
  | bool (b : Bool) : Json
  | num (n : Int) : Json
  | str (s : List Nat) : Json
  | arr (elems : List Json) : Json
  | obj (fields : List (List Nat × Json)) : Json

/-- JS property lookup on a parsed JSON value: defined (`some`) only for an
object that carries the key; every other access yields `undefined` (`none`). -/
def Json.getField : Json → List Nat → Option Json
  | .obj fields, key =>
    match fields.find? (fun f => f.1 = key) with
    | some f => some f.2
    | none => none
  | _, _ => none

/-- JS truthiness of a possibly-`undefined` value: `undefined`, `null`,
`false`, `0` and the empty string are falsy; everything else is truthy. -/
def jsTruthy : Option Json → Bool
  | none => false
  | some .null => false
  | some (.bool b) => b
  | some (.num n) => n != 0
  | some (.str s) => s != []
  | some (.arr _) => true
  | some (.obj _) => true

/-- The value returned by a successful `decodeUpdateFrame`: a parsed JSON
value, a UTF-8 text payload, or raw bytes. -/
inductive FrameValue where
  | json (j : Json) : FrameValue
  | text (s : List Nat) : FrameValue
  | binary (b : List Nat) : FrameValue

/-- JS property lookup on a frame value: only a JSON object carries fields;
on text (a JS string) and binary (a `Buffer`) every property is `undefined`. -/
def FrameValue.getField : FrameValue → List Nat → Option Json
  | .json j, key => j.getField key
  | _, _ => none

/-- JS truthiness of a decoded frame value: a parsed JSON `null`, `false`,
`0` or empty string is falsy, as is an empty text payload; a binary payload
is a `Buffer` object and hence always truthy. -/
def FrameValue.jsTruthy : FrameValue → Bool
  | .json j => Protect.jsTruthy (some j)
  | .text s => s != []
  | .binary _ => true

/-- `decodeUpdateFrame(packet, packetType)`.  First component: the result
(`Except.error` = an exception thrown out of the function, `Except.ok none` =
returned `null`).  Second component: whether the unknown-payload diagnostic
was logged (`Homey.app.debug('Unknown payload packet type …')`). -/
def decodeUpdateFrame (inflate : List Nat → Option (List Nat))
    (jsonParse : List Nat → Option Json) (packet : List Nat) (packetType : Nat) :
    Except Unit (Option FrameValue) × Bool :=
  match readUInt8 packet 0 with
  | none => (.error (), false)
  | some frameType =>
    -- `if (packetType !== frameType) return null;`
    if packetType ≠ frameType then (.ok none, false)
    else
      match readUInt8 packet 1 with
      | none => (.error (), false)
      | some payloadFormat =>
        match readUInt8 packet 2 with
        | none => (.error (), false)
        | some compressed =>
          -- `packet.readUInt8(2) ? zlib.inflateSync(packet.slice(8)) : packet.slice(8)`
          match (if compressed ≠ 0 then inflate (packet.drop UPDATE_PACKET_HEADER_SIZE)
                 else some (packet.drop UPDATE_PACKET_HEADER_SIZE)) with
          | none => (.error (), false)
          | some payload =>
            if frameType = 1 then
              -- an action frame admits only the JSON format
              if payloadFormat = 1 then
                match jsonParse payload with
                | none => (.error (), false)
                | some j => (.ok (some (.json j)), false)
              else (.ok none, false)
            else
              -- the `switch (payloadFormat)` statement, case by case
              if payloadFormat = 1 then
                match jsonParse payload with
                | none => (.error (), false)
                | some j => (.ok (some (.json j)), false)
              else if payloadFormat = 2 then (.ok (some (.text payload)), false)
              else if payloadFormat = 3 then (.ok (some (.binary payload)), false)
              else (.ok none, true)

/-- A fully decoded update packet: the action frame and the payload frame. -/
structure UpdatePacket where
  action : FrameValue
  payload : FrameValue

/-- The guarded header block of `decodeUpdatePacket`: read the action-frame
payload size at offset 4, compute `dataOffset`, read the payload size at
`dataOffset + 4` and validate the total length.  `none` models the catch
branch (any read throwing, or the explicit length-mismatch throw); `some`
returns the computed `dataOffset`. -/
def headerCheck (packet : List Nat) : Option Nat :=
  match readUInt32BE packet 4 with
  | none => none
  | some actionLength =>
    let dataOffset := actionLength + UPDATE_PACKET_HEADER_SIZE
    match readUInt32BE packet (dataOffset + 4) with
    | none => none
    | some payloadLength =>
      if packet.length = dataOffset + UPDATE_PACKET_HEADER_SIZE + payloadLength then
        some dataOffset
      else none

/-- `decodeUpdatePacket(packet)`.  The header reads and the length validation
are guarded by try/catch (a failure there returns `null`); the two
`decodeUpdateFrame` calls are outside the guard, so an exception raised in
either of them propagates out of `decodeUpdatePacket`. -/
def decodeUpdatePacket (inflate : List Nat → Option (List Nat))
    (jsonParse : List Nat → Option Json) (packet : List Nat) :
    Except Unit (Option UpdatePacket) :=
  match headerCheck packet with
  | none => .ok none
  | some dataOffset =>
    -- `packet.slice(0, dataOffset)` / `packet.slice(dataOffset)`
    match (decodeUpdateFrame inflate jsonParse (packet.take dataOffset) 1).1 with
    | .error e => .error e
    | .ok actionFrame =>
      match (decodeUpdateFrame inflate jsonParse (packet.drop dataOffset) 2).1 with
      | .error e => .error e
      | .ok payloadFrame =>
        -- `if (!actionFrame || !payloadFrame) return null;` — a JS truthiness
        -- test: a null frame, and equally a falsy decoded value (empty text,
        -- JSON null/false/0/empty string), rejects the whole packet
        match actionFrame, payloadFrame with
        | some a, some p =>
          if a.jsTruthy && p.jsTruthy then .ok (some ⟨a, p⟩) else .ok none
        | _, _ => .ok none

/-! ## Packet router (`configureUpdatesListener` message handler) -/

/-- Byte codes of an ASCII string literal, for readable keys. -/
def ascii (s : String) : List Nat := s.data.map Char.toNat

/-- JS strict equality `v === 'lit'` between a possibly-`undefined` value and
a string literal: true exactly when `v` is a string with those bytes. -/
def jsStrictEqStr (v : Option Json) (s : List Nat) : Bool :=
  match v with
  | some (.str t) => t == s
  | _ => false

/-- The body of the `message` handler registered by `configureUpdatesListener`,
from the point where an `UpdatePacket` has been decoded successfully.
`lookup` models `driver.getDeviceById` over the external device registry
(devices are opaque `Nat` handles); the argument it receives is the JS value
`updatePacket.action.id` (possibly `undefined`).  The result is
`some (device, payload)` when `driver.onParseWesocketMessage(device, payload)`
is invoked — with the raw payload, exactly once — and `none` when the packet
is discarded without any forwarding call. -/
def routeUpdatePacket (lookup : Option Json → Option Nat) (pkt : UpdatePacket) :
    Option (Nat × FrameValue) :=
  -- `if ((updatePacket.action.action !== 'update') || (updatePacket.action.modelKey !== 'camera')) return;`
  if !jsStrictEqStr (pkt.action.getField (ascii "action")) (ascii "update")
      || !jsStrictEqStr (pkt.action.getField (ascii "modelKey")) (ascii "camera") then
    none
  else
    let payload := pkt.payload
    -- `if (payload.stats) return;`  (truthiness of the property value)
    if jsTruthy (payload.getField (ascii "stats")) then none
    else
      -- `const device = driver.getDeviceById(updatePacket.action.id); if (!device) return;`
      match lookup (pkt.action.getField (ascii "id")) with
      | none => none
      | some device => some (device, payload)

/-! ## A concrete executable model of `JSON.parse` and of JSON serialization

Used to instantiate the `jsonParse` parameter on concrete inputs.  The model
is restricted where the claims never look: numerals are integers (no
fractions or exponents, no leading-zero rejection) and string escapes cover
the single-character forms only (no `\u`). -/

/-- JSON insignificant whitespace. -/
def isWs (c : Nat) : Bool := c == 32 || c == 9 || c == 10 || c == 13

/-- Drop leading JSON whitespace. -/
def skipWs : List Nat → List Nat
  | c :: rest => if isWs c then skipWs rest else c :: rest
  | [] => []

/-- ASCII decimal digit. -/
def isDigit (c : Nat) : Bool := 48 ≤ c && c ≤ 57

/-- Split off a maximal run of leading digits. -/
def takeDigits : List Nat → List Nat × List Nat
  | c :: rest =>
    if isDigit c then
      let (ds, r) := takeDigits rest
      (c :: ds, r)
    else ([], c :: rest)
  | [] => ([], [])

/-- Numeric value of a digit run. -/
def digitsVal (ds : List Nat) : Nat := ds.foldl (fun a c => a * 10 + (c - 48)) 0

/-- Single-character string escapes `\" \\ \/ \b \f \n \r \t`. -/
def escChar (c : Nat) : Option Nat :=
  if c == 34 ∨ c == 92 ∨ c == 47 then some c
  else if c == 98 then some 8
  else if c == 102 then some 12
  else if c == 110 then some 10
  else if c == 114 then some 13
  else if c == 116 then some 9
  else none

/-- Parse a string body after the opening quote, up to and including the
closing quote.  Returns the decoded bytes and the remaining input. -/
def parseStringBody : Nat → List Nat → Option (List Nat × List Nat)
  | 0, _ => none
  | _ + 1, [] => none
  | _ + 1, 34 :: rest => some ([], rest)
  | fuel + 1, 92 :: e :: rest =>
    match escChar e with
    | none => none
    | some c =>
      match parseStringBody fuel rest with
      | none => none
      | some (cs, r) => some (c :: cs, r)
  | fuel + 1, c :: rest =>
    match parseStringBody fuel rest with
    | none => none
    | some (cs, r) => some (c :: cs, r)

/-- Parse an optionally-signed integer numeral. -/
def parseNumber (s : List Nat) : Option (Json × List Nat) :=
  match s with
  | 45 :: rest =>
    match takeDigits rest with
    | ([], _) => none
    | (ds, r) => some (.num (-(digitsVal ds : Int)), r)
  | _ =>
    match takeDigits s with
    | ([], _) => none
    | (ds, r) => some (.num (digitsVal ds : Int), r)

mutual

/-- Parse a JSON value, returning it with the unconsumed remainder. -/
def parseValue : Nat → List Nat → Option (Json × List Nat)
  | 0, _ => none
  | fuel + 1, s =>
    match skipWs s with
    | 110 :: 117 :: 108 :: 108 :: rest => some (.null, rest)
    | 116 :: 114 :: 117 :: 101 :: rest => some (.bool true, rest)
    | 102 :: 97 :: 108 :: 115 :: 101 :: rest => some (.bool false, rest)
    | 34 :: rest =>
      match parseStringBody (rest.length + 1) rest with
      | none => none
      | some (cs, r) => some (.str cs, r)
    | 91 :: rest =>
      match skipWs rest with
      | 93 :: r => some (.arr [], r)
      | _ =>
        match parseElems fuel rest with
        | none => none
        | some (es, r) => some (.arr es, r)
    | 123 :: rest =>
      match skipWs rest with
      | 125 :: r => some (.obj [], r)
      | _ =>
        match parseMembers fuel rest with
        | none => none
        | some (fs, r) => some (.obj fs, r)
    | t => parseNumber t

/-- Parse one or more comma-separated array elements and the closing `]`. -/
def parseElems : Nat → List Nat → Option (List Json × List Nat)
  | 0, _ => none
  | fuel + 1, s =>
    match parseValue fuel s with
    | none => none
    | some (j, r) =>
      match skipWs r with
      | 44 :: rest =>
        match parseElems fuel rest with
        | none => none
        | some (js, r2) => some (j :: js, r2)
      | 93 :: rest => some ([j], rest)
      | _ => none

/-- Parse one or more comma-separated object members and the closing brace. -/
def parseMembers : Nat → List Nat → Option (List (List Nat × Json) × List Nat)
  | 0, _ => none
  | fuel + 1, s =>
    match skipWs s with
    | 34 :: rest =>
      match parseStringBody (rest.length + 1) rest with
      | none => none
      | some (key, r) =>
        match skipWs r with
        | 58 :: r2 =>
          match parseValue fuel r2 with
          | none => none
          | some (j, r3) =>
            match skipWs r3 with
            | 44 :: r4 =>
              match parseMembers fuel r4 with
              | none => none
              | some (fs, r5) => some ((key, j) :: fs, r5)
            | 125 :: r4 => some ([(key, j)], r4)
            | _ => none
        | _ => none
    | _ => none

end

/-- The concrete model of `JSON.parse` on the UTF-8 bytes of its input:
`none` models a thrown `SyntaxError`. -/
def jsParse (input : List Nat) : Option Json :=
  match parseValue (2 * input.length + 2) input with
  | none => none
  | some (j, r) => if skipWs r = [] then some j else none

/-- Serialize a string with the two escapes the parser model understands. -/
def renderString (s : List Nat) : List Nat :=
  34 :: (s.map (fun c => if c == 34 then [92, 34] else if c == 92 then [92, 92] else [c])).flatten
    ++ [34]

mutual

/-- Serialize a JSON value (the model of `JSON.stringify`). -/
def render : Json → List Nat
  | .null => ascii "null"
  | .bool true => ascii "true"
  | .bool false => ascii "false"
  | .num n => ascii (toString n)
  | .str s => renderString s
  | .arr es => 91 :: renderElems es ++ [93]
  | .obj fs => 123 :: renderMembers fs ++ [125]

/-- Comma-separated serialization of array elements. -/
def renderElems : List Json → List Nat
  | [] => []
  | [x] => render x
  | x :: y :: xs => render x ++ 44 :: renderElems (y :: xs)

/-- Comma-separated serialization of object members. -/
def renderMembers : List (List Nat × Json) → List Nat
  | [] => []
  | [(k, v)] => renderString k ++ 58 :: render v
  | (k, v) :: m :: ms => renderString k ++ 58 :: render v ++ 44 :: renderMembers (m :: ms)

end

/-! ## Connection lifecycle manager (`launchUpdatesListener` and friends)

The single-threaded event loop is modelled by pure handler functions over an
explicit state.  Sockets and interval timers are opaque `Nat` handles drawn
from a counter; `activeTimers` is the set of interval timers the runtime will
still fire (`clearInterval` removes a handle from it).  Each handler also
returns, in program order, the externally visible actions it performs. -/

/-- Connection status notifications published over `homey.api.realtime`. -/
inductive Status where
  | connecting : Status
  | connected : Status
  | disconnected : Status
  | errorMessage : Status
deriving Repr, DecidableEq

/-- Externally visible actions of a handler, in the order performed. -/
inductive Effect where
  | statusNote (s : Status) : Effect
  | clearTimer (t : Option Nat) : Effect
  | scheduleReconnect : Effect
  | sendPing : Effect
  | debugLog : Effect
deriving Repr, DecidableEq

/-- The mutable fields of `ProtectWebSocket` together with the runtime's
socket and timer bookkeeping. -/
structure WsState where
  eventListener : Option Nat
  eventListenerConfigured : Bool
  pingPong : Option Nat
  activeTimers : List Nat
  sockets : List Nat
  reconnectScheduled : Bool
  nextId : Nat
deriving Repr, DecidableEq

/-- The state after the constructor: no listener, no timer, nothing pending. -/
def initState : WsState :=
  { eventListener := none, eventListenerConfigured := false, pingPong := none,
    activeTimers := [], sockets := [], reconnectScheduled := false, nextId := 0 }

/-- The three possible outcomes of `new WebSocket(...)`: the constructor
throws, yields a falsy value, or yields the fresh socket object.  JS `new`
can never yield a falsy value when the constructor completes, so `falsy` is
an impossible outcome kept only because the source tests for it. -/
inductive CtorOutcome where
  | throws : CtorOutcome
  | falsy : CtorOutcome
  | ok : CtorOutcome
deriving Repr, DecidableEq

/-- `launchUpdatesListener()`: returns the JS return value, the new state and
the effects.  On the `throws` outcome the catch block logs and publishes the
error status, and the function still returns `true`; nothing schedules a
reconnection attempt. -/
def launchUpdatesListener (ctor : CtorOutcome) (s : WsState) :
    Bool × WsState × List Effect :=
  -- `if (this._eventListener) return true;`
  if s.eventListener.isSome then (true, s, [])
  else
    match ctor with
    | .throws =>
      (true, s, [.debugLog, .statusNote .connecting, .debugLog, .statusNote .errorMessage])
    | .falsy =>
      (false, { s with eventListener := none, eventListenerConfigured := false },
        [.debugLog, .statusNote .connecting, .debugLog])
    | .ok =>
      let ws := s.nextId
      let t := s.nextId + 1
      (true,
        { s with eventListener := some ws, sockets := ws :: s.sockets,
                 pingPong := some t, activeTimers := t :: s.activeTimers,
                 nextId := s.nextId + 2 },
        [.debugLog, .statusNote .connecting])

/-- The `close` handler: delete the listener, unset the configured flag,
`clearInterval(this._pingPong)`, publish `Disconnected`, then call
`reconnectUpdatesListener()` (which re-enters the bootstrap-gated wait). -/
def onClose (s : WsState) : WsState × List Effect :=
  ({ s with eventListener := none, eventListenerConfigured := false,
            activeTimers := match s.pingPong with
                            | some t => s.activeTimers.filter (fun x => x ≠ t)
                            | none => s.activeTimers,
            reconnectScheduled := true },
   [.clearTimer s.pingPong, .statusNote .disconnected, .scheduleReconnect])

/-- `sendPingPongMessage()`: send a ping when a listener is present. -/
def sendPingPongMessage (s : WsState) : List Effect :=
  if s.eventListener.isSome then [.sendPing, .debugLog] else []

/-- An interval-timer tick: the runtime fires the callback only for a timer
that is still active (an interval cancelled by `clearInterval` never fires
again). -/
def onTick (t : Nat) (s : WsState) : List Effect :=
  if t ∈ s.activeTimers then sendPingPongMessage s else []

/-- `configureUpdatesListener()` state change: mark the listener configured
when one exists and it is not configured yet. -/
def configureUpdatesListener (s : WsState) : WsState :=
  if s.eventListener.isNone || s.eventListenerConfigured then s
  else { s with eventListenerConfigured := true }

/-- `waitForBootstrap()`: with a bootstrap cursor available, launch and
configure the listener; otherwise reschedule itself (second component
`true`) after the 250 ms delay. -/
def waitForBootstrap (lastUpdateId : Option Nat) (ctor : CtorOutcome) (s : WsState) :
    WsState × Bool :=
  match lastUpdateId with
  | some _ => (configureUpdatesListener (launchUpdatesListener ctor s).2.1, false)
  | none => (s, true)

/-! ## Synthetic packet encoder -/

/-- Big-endian 32-bit encoding of a length. -/
def be32 (n : Nat) : List Nat :=
  [n / 2 ^ 24 % 256, n / 2 ^ 16 % 256, n / 2 ^ 8 % 256, n % 256]

/-- Modelled from the spec: the documented 8-byte sub-frame header layout
(byte 0 = frame type, byte 1 = payload format, byte 2 = compression flag,
byte 3 reserved, bytes 4–7 = big-endian uint32 body length) followed by the
body, deflate-compressed when the flag is set.  The repository has no
encoder; this is the synthetic encoder of the round-trip property. -/
def encodeUpdateFrame (deflate : List Nat → List Nat) (frameType fmt : Nat)
    (compressed : Bool) (body : List Nat) : List Nat :=
  let wire := if compressed then deflate body else body
  frameType :: fmt :: (if compressed then 1 else 0) :: 0 :: (be32 wire.length ++ wire)

/-- The wire payload-format tag of a frame value. -/
def payloadFormatOf : FrameValue → Nat
  | .json _ => 1
  | .text _ => 2
  | .binary _ => 3

/-- The body bytes of a frame value before compression. -/
def frameBody (serialize : Json → List Nat) : FrameValue → List Nat
  | .json j => serialize j
  | .text s => s
  | .binary b => b

/-- Modelled from the spec: a whole synthetic update packet, the action
sub-frame (type 1, JSON format) followed by the payload sub-frame (type 2). -/
def encodeUpdatePacket (deflate : List Nat → List Nat) (serialize : Json → List Nat)
    (ca cp : Bool) (a : Json) (p : FrameValue) : List Nat :=
  encodeUpdateFrame deflate 1 1 ca (serialize a)
    ++ encodeUpdateFrame deflate 2 (payloadFormatOf p) cp (frameBody serialize p)

/-! ## Helper lemmas -/

theorem decodeUpdatePacket_of_headerCheck_none (inflate : List Nat → Option (List Nat))
    (jsonParse : List Nat → Option Json) (packet : List Nat)
    (h : headerCheck packet = none) :
    decodeUpdatePacket inflate jsonParse packet = .ok none := by
  unfold decodeUpdatePacket
  rw [h]

theorem headerCheck_eq_none (packet : List Nat)
    (h : ¬ ∃ al pl, readUInt32BE packet 4 = some al ∧
        readUInt32BE packet (al + UPDATE_PACKET_HEADER_SIZE + 4) = some pl ∧
        packet.length = al + UPDATE_PACKET_HEADER_SIZE + UPDATE_PACKET_HEADER_SIZE + pl) :
    headerCheck packet = none := by
  cases h4 : readUInt32BE packet 4 with
  | none => simp [headerCheck, h4]
  | some al =>
    cases hp : readUInt32BE packet (al + UPDATE_PACKET_HEADER_SIZE + 4) with
    | none => simp [headerCheck, h4, hp]
    | some pl =>
      simp only [headerCheck, h4, hp]
      rw [if_neg]
      intro heq
      exact h ⟨al, pl, h4, hp, heq⟩

/-! ## C5: length-mismatch rejection -/

/-- C5: for every buffer whose length does not match the header information
(`buffer.length != dataOffset + 8 + payloadLength` with
`dataOffset = 8 + readUInt32BE(4)` and `payloadLength` read at
`dataOffset + 4`), including buffers too short for those reads,
`decodeUpdatePacket` returns `null` and throws nothing: the whole header
block is inside the try/catch, so the result is `Except.ok none`. -/
theorem decodeUpdatePacket_length_mismatch (inflate : List Nat → Option (List Nat))
    (jsonParse : List Nat → Option Json) (packet : List Nat)
    (h : ¬ ∃ al pl, readUInt32BE packet 4 = some al ∧
        readUInt32BE packet (al + UPDATE_PACKET_HEADER_SIZE + 4) = some pl ∧
        packet.length = al + UPDATE_PACKET_HEADER_SIZE + UPDATE_PACKET_HEADER_SIZE + pl) :
    decodeUpdatePacket inflate jsonParse packet = .ok none :=
  decodeUpdatePacket_of_headerCheck_none inflate jsonParse packet (headerCheck_eq_none packet h)

/-- C5 witness: the three-byte buffer `[0, 1, 2]` is too short for the
header reads; `decodeUpdatePacket` returns `null` without throwing. -/
theorem decodeUpdatePacket_length_mismatch_witness :
    decodeUpdatePacket Option.some jsParse [0, 1, 2] = .ok none :=
  decodeUpdatePacket_length_mismatch Option.some jsParse [0, 1, 2]
    (by rintro ⟨al, pl, h1, -, -⟩; simp [readUInt32BE] at h1)

/-! ## C1: containment of sub-frame decode failures -/

/-- C1 counterexample: a 19-byte packet with a valid header structure whose
action-frame body is the single byte `x` (not JSON).  `JSON.parse` throws,
the call sits outside the try/catch of `decodeUpdatePacket`, and the
exception escapes to the caller instead of a `null` return. -/
theorem decodeUpdatePacket_json_failure_throws :
    decodeUpdatePacket Option.some jsParse
        [1, 1, 0, 0, 0, 0, 0, 1, 120, 2, 1, 0, 0, 0, 0, 0, 2, 123, 125] = .error () ∧
      decodeUpdatePacket Option.some jsParse
        [1, 1, 0, 0, 0, 0, 0, 1, 120, 2, 1, 0, 0, 0, 0, 0, 2, 123, 125] ≠ .ok none :=
  ⟨rfl, fun h => Except.noConfusion h⟩

/-- C1 amended: only the header reads and the length validation are guarded;
an inflate failure or a JSON-parse failure inside either sub-frame makes
`decodeUpdateFrame` throw, and that exception propagates out of
`decodeUpdatePacket` (it does not return `null`). -/
theorem decodeUpdatePacket_subframe_exception (inflate : List Nat → Option (List Nat))
    (jsonParse : List Nat → Option Json) :
    (∀ packet d, headerCheck packet = some d →
        (decodeUpdateFrame inflate jsonParse (packet.take d) 1).1 = .error () →
        decodeUpdatePacket inflate jsonParse packet = .error ()) ∧
    (∀ packet d a, headerCheck packet = some d →
        (decodeUpdateFrame inflate jsonParse (packet.take d) 1).1 = .ok a →
        (decodeUpdateFrame inflate jsonParse (packet.drop d) 2).1 = .error () →
        decodeUpdatePacket inflate jsonParse packet = .error ()) ∧
    (∀ frame t f c, readUInt8 frame 0 = some t → readUInt8 frame 1 = some f →
        readUInt8 frame 2 = some c → c ≠ 0 →
        inflate (frame.drop UPDATE_PACKET_HEADER_SIZE) = none →
        (decodeUpdateFrame inflate jsonParse frame t).1 = .error ()) ∧
    (∀ frame t c body, readUInt8 frame 0 = some t → readUInt8 frame 1 = some 1 →
        readUInt8 frame 2 = some c →
        (if c ≠ 0 then inflate (frame.drop UPDATE_PACKET_HEADER_SIZE)
          else some (frame.drop UPDATE_PACKET_HEADER_SIZE)) = some body →
        jsonParse body = none →
        (decodeUpdateFrame inflate jsonParse frame t).1 = .error ()) := by
  refine ⟨?_, ?_, ?_, ?_⟩
  · intro packet d hd hframe
    unfold decodeUpdatePacket
    rw [hd]
    simp only [hframe]
  · intro packet d a hd ha hp
    unfold decodeUpdatePacket
    rw [hd]
    simp only [ha, hp]
  · intro frame t f c h0 h1 h2 hc hinf
    unfold decodeUpdateFrame
    rw [h0, h1, h2]
    simp [hc, hinf]
  · intro frame t c body h0 h1 h2 hbody hjson
    unfold decodeUpdateFrame
    rw [h0, h1, h2]
    by_cases ht : t = 1
    · subst ht
      simp [hbody, hjson]
    · simp [hbody, hjson, ht]

/-- C1 amended witness: a packet whose action frame is the JSON `{}` and
whose payload-frame body is the non-JSON byte `x`: the payload-frame parse
failure propagates as an exception out of `decodeUpdatePacket`. -/
theorem decodeUpdatePacket_subframe_exception_witness :
    decodeUpdatePacket Option.some jsParse
        [1, 1, 0, 0, 0, 0, 0, 2, 123, 125, 2, 1, 0, 0, 0, 0, 0, 1, 120] = .error () :=
  (decodeUpdatePacket_subframe_exception Option.some jsParse).2.1
    [1, 1, 0, 0, 0, 0, 0, 2, 123, 125, 2, 1, 0, 0, 0, 0, 0, 1, 120] 10
    (some (.json (.obj []))) rfl rfl rfl

/-! ## C8: frame-type and payload-format rejection -/

/-- C8 counterexample: the action frame `[1, 2, 1, 0, 0, 0, 0, 0]` carries
payload-format tag 2 (≠ 1) and the compression flag, and its empty body
makes `zlib.inflateSync` throw; `decodeUpdateFrame` then throws rather than
returning `null`, so the format-mismatch clause does not hold for every
buffer. -/
theorem decodeUpdateFrame_format_mismatch_throws :
    (decodeUpdateFrame (fun _ => none) jsParse [1, 2, 1, 0, 0, 0, 0, 0] 1).1 = .error () ∧
      readUInt8 [1, 2, 1, 0, 0, 0, 0, 0] 1 = some 2 :=
  ⟨rfl, rfl⟩

/-- C8 amended: provided the three header bytes are readable and the body
decompresses, `decodeUpdateFrame` returns `null` on a frame-type mismatch,
on an action frame with format ≠ 1, and on a payload frame with format
outside {1,2,3}; the latter branch is the only path that sets the
unknown-payload diagnostic, and whenever that diagnostic is logged the
result is `null` on a non-action frame with unknown format. -/
theorem decodeUpdateFrame_rejections (inflate : List Nat → Option (List Nat))
    (jsonParse : List Nat → Option Json) :
    (∀ pk t b0, readUInt8 pk 0 = some b0 → t ≠ b0 →
        decodeUpdateFrame inflate jsonParse pk t = (.ok none, false)) ∧
    (∀ pk f c body, readUInt8 pk 0 = some 1 → readUInt8 pk 1 = some f →
        readUInt8 pk 2 = some c →
        (if c ≠ 0 then inflate (pk.drop UPDATE_PACKET_HEADER_SIZE)
          else some (pk.drop UPDATE_PACKET_HEADER_SIZE)) = some body →
        f ≠ 1 →
        decodeUpdateFrame inflate jsonParse pk 1 = (.ok none, false)) ∧
    (∀ pk f c body, readUInt8 pk 0 = some 2 → readUInt8 pk 1 = some f →
        readUInt8 pk 2 = some c →
        (if c ≠ 0 then inflate (pk.drop UPDATE_PACKET_HEADER_SIZE)
          else some (pk.drop UPDATE_PACKET_HEADER_SIZE)) = some body →
        f ≠ 1 → f ≠ 2 → f ≠ 3 →
        decodeUpdateFrame inflate jsonParse pk 2 = (.ok none, true)) ∧
    (∀ pk t, (decodeUpdateFrame inflate jsonParse pk t).2 = true →
        decodeUpdateFrame inflate jsonParse pk t = (.ok none, true) ∧
          readUInt8 pk 0 = some t ∧ t ≠ 1 ∧
          ∃ f, readUInt8 pk 1 = some f ∧ f ≠ 1 ∧ f ≠ 2 ∧ f ≠ 3) := by
  refine ⟨?_, ?_, ?_, ?_⟩
  · intro pk t b0 h0 hne
    simp [decodeUpdateFrame, h0, hne]
  · intro pk f c body h0 h1 h2 hb hf
    simp [decodeUpdateFrame, h0, h1, h2, hb, hf]
  · intro pk f c body h0 h1 h2 hb hf1 hf2 hf3
    simp [decodeUpdateFrame, h0, h1, h2, hb, hf1, hf2, hf3]
  · intro pk t hlog
    cases h0 : readUInt8 pk 0 with
    | none => simp [decodeUpdateFrame, h0] at hlog
    | some b0 =>
      by_cases hne : t ≠ b0
      · simp [decodeUpdateFrame, h0, hne] at hlog
      · have ht : t = b0 := not_ne_iff.mp hne
        subst ht
        cases h1 : readUInt8 pk 1 with
        | none => simp [decodeUpdateFrame, h0, h1] at hlog
        | some f =>
          cases h2 : readUInt8 pk 2 with
          | none => simp [decodeUpdateFrame, h0, h1, h2] at hlog
          | some c =>
            cases hb : (if c ≠ 0 then inflate (pk.drop UPDATE_PACKET_HEADER_SIZE)
                else some (pk.drop UPDATE_PACKET_HEADER_SIZE)) with
            | none => simp [decodeUpdateFrame, h0, h1, h2, hb] at hlog
            | some body =>
              by_cases hft : t = 1
              · subst hft
                by_cases hf1 : f = 1
                · subst hf1
                  cases hj : jsonParse body with
                  | none => simp [decodeUpdateFrame, h0, h1, h2, hb, hj] at hlog
                  | some j => simp [decodeUpdateFrame, h0, h1, h2, hb, hj] at hlog
                · simp [decodeUpdateFrame, h0, h1, h2, hb, hf1] at hlog
              · by_cases hf1 : f = 1
                · subst hf1
                  cases hj : jsonParse body with
                  | none => simp [decodeUpdateFrame, h0, h1, h2, hb, hft, hj] at hlog
                  | some j => simp [decodeUpdateFrame, h0, h1, h2, hb, hft, hj] at hlog
                · by_cases hf2 : f = 2
                  · simp [decodeUpdateFrame, h0, h1, h2, hb, hft, hf1, hf2] at hlog
                  · by_cases hf3 : f = 3
                    · simp [decodeUpdateFrame, h0, h1, h2, hb, hft, hf1, hf2, hf3] at hlog
                    · refine ⟨?_, rfl, hft, f, rfl, hf1, hf2, hf3⟩
                      simp [decodeUpdateFrame, h0, h1, h2, hb, hft, hf1, hf2, hf3]

/-- C8 amended witness: expecting frame type 1 on a buffer whose first byte
is 2 returns `null` before any further header byte is read. -/
theorem decodeUpdateFrame_rejections_witness :
    decodeUpdateFrame Option.some jsParse [2] 1 = (.ok none, false) :=
  (decodeUpdateFrame_rejections Option.some jsParse).1 [2] 1 2 rfl (by decide)

/-! ## C2: the `stats` discard decision -/

/-- C2 counterexample: a camera update whose payload is `{"stats": 0}` —
the `stats` key is present with the falsy value `0` — is *not* discarded:
`if (payload.stats)` is a truthiness test, so the router forwards the
payload to the resolved device. -/
theorem routeUpdatePacket_stats_zero_forwards :
    (FrameValue.json (.obj [(ascii "stats", .num 0)])).getField (ascii "stats")
        = some (.num 0) ∧
      routeUpdatePacket (fun v => if jsStrictEqStr v (ascii "cam1") then some 7 else none)
        ⟨.json (.obj [(ascii "action", .str (ascii "update")),
                      (ascii "modelKey", .str (ascii "camera")),
                      (ascii "id", .str (ascii "cam1"))]),
         .json (.obj [(ascii "stats", .num 0)])⟩
        = some (7, .json (.obj [(ascii "stats", .num 0)])) :=
  ⟨rfl, rfl⟩

/-- C2 amended: for an `update`/`camera` packet the discard decision is a
JS-truthiness check on the value of `payload.stats`: a truthy value
discards, and any falsy value (absent key, `0`, `false`, `null`, the empty
string) leaves the packet to be forwarded whenever the device id
resolves. -/
theorem routeUpdatePacket_stats_truthiness (lookup : Option Json → Option Nat)
    (pkt : UpdatePacket)
    (ha : jsStrictEqStr (pkt.action.getField (ascii "action")) (ascii "update") = true)
    (hm : jsStrictEqStr (pkt.action.getField (ascii "modelKey")) (ascii "camera") = true) :
    routeUpdatePacket lookup pkt =
      if jsTruthy (pkt.payload.getField (ascii "stats")) then none
      else (lookup (pkt.action.getField (ascii "id"))).map (fun d => (d, pkt.payload)) := by
  by_cases hs : jsTruthy (pkt.payload.getField (ascii "stats"))
  · simp [routeUpdatePacket, ha, hm, hs]
  · cases hl : lookup (pkt.action.getField (ascii "id")) with
    | none => simp [routeUpdatePacket, ha, hm, hs, hl]
    | some d => simp [routeUpdatePacket, ha, hm, hs, hl]

/-- C2 amended witness: `{"stats": false}` (falsy value) is forwarded to the
resolved device. -/
theorem routeUpdatePacket_stats_truthiness_witness :
    routeUpdatePacket (fun v => if jsStrictEqStr v (ascii "c1") then some 5 else none)
      ⟨.json (.obj [(ascii "action", .str (ascii "update")),
                    (ascii "modelKey", .str (ascii "camera")),
                    (ascii "id", .str (ascii "c1"))]),
       .json (.obj [(ascii "stats", .bool false)])⟩
      = some (5, .json (.obj [(ascii "stats", .bool false)])) :=
  (routeUpdatePacket_stats_truthiness
      (fun v => if jsStrictEqStr v (ascii "c1") then some 5 else none)
      ⟨.json (.obj [(ascii "action", .str (ascii "update")),
                    (ascii "modelKey", .str (ascii "camera")),
                    (ascii "id", .str (ascii "c1"))]),
       .json (.obj [(ascii "stats", .bool false)])⟩ rfl rfl).trans rfl

/-! ## C6: router filter correctness -/

/-- C6 counterexample: a payload bearing a `stats` field whose value is the
empty string (falsy) is forwarded, so "the payload bears stats → no
forwarding call" fails as stated. -/
theorem routeUpdatePacket_stats_empty_string_forwards :
    (FrameValue.json (.obj [(ascii "stats", .str [])])).getField (ascii "stats")
        = some (.str []) ∧
      routeUpdatePacket (fun v => if jsStrictEqStr v (ascii "cam2") then some 3 else none)
        ⟨.json (.obj [(ascii "action", .str (ascii "update")),
                      (ascii "modelKey", .str (ascii "camera")),
                      (ascii "id", .str (ascii "cam2"))]),
         .json (.obj [(ascii "stats", .str [])])⟩
        = some (3, .json (.obj [(ascii "stats", .str [])])) :=
  ⟨rfl, rfl⟩

/-- C6 amended: the router forwards the raw payload to device `d` exactly
when `action.action` is `"update"`, `action.modelKey` is `"camera"`, the
payload's `stats` property is not truthy, and the registry resolves
`action.id` to `d`; in every other case it performs no forwarding call.
Any forwarding that happens carries the packet's raw payload. -/
theorem routeUpdatePacket_filter (lookup : Option Json → Option Nat)
    (pkt : UpdatePacket) (d : Nat) :
    (routeUpdatePacket lookup pkt = some (d, pkt.payload) ↔
      (jsStrictEqStr (pkt.action.getField (ascii "action")) (ascii "update") = true ∧
        jsStrictEqStr (pkt.action.getField (ascii "modelKey")) (ascii "camera") = true ∧
        jsTruthy (pkt.payload.getField (ascii "stats")) = false ∧
        lookup (pkt.action.getField (ascii "id")) = some d)) ∧
    (∀ r, routeUpdatePacket lookup pkt = some r → r.2 = pkt.payload) := by
  constructor
  · by_cases ha : jsStrictEqStr (pkt.action.getField (ascii "action")) (ascii "update")
    · by_cases hm : jsStrictEqStr (pkt.action.getField (ascii "modelKey")) (ascii "camera")
      · by_cases hs : jsTruthy (pkt.payload.getField (ascii "stats"))
        · simp [routeUpdatePacket, ha, hm, hs]
        · cases hl : lookup (pkt.action.getField (ascii "id")) with
          | none => simp [routeUpdatePacket, ha, hm, hs, hl]
          | some d' => simp [routeUpdatePacket, ha, hm, hs, hl]
      · simp [routeUpdatePacket, ha, hm]
    · simp [routeUpdatePacket, ha]
  · intro r hr
    by_cases ha : jsStrictEqStr (pkt.action.getField (ascii "action")) (ascii "update")
    · by_cases hm : jsStrictEqStr (pkt.action.getField (ascii "modelKey")) (ascii "camera")
      · by_cases hs : jsTruthy (pkt.payload.getField (ascii "stats"))
        · simp [routeUpdatePacket, ha, hm, hs] at hr
        · cases hl : lookup (pkt.action.getField (ascii "id")) with
          | none => simp [routeUpdatePacket, ha, hm, hs, hl] at hr
          | some d' =>
            simp [routeUpdatePacket, ha, hm, hs, hl] at hr
            rw [← hr]
      · simp [routeUpdatePacket, ha, hm] at hr
    · simp [routeUpdatePacket, ha] at hr

/-- C6 amended witness: with all filter conditions met the packet is
forwarded to the resolved device with its raw payload. -/
theorem routeUpdatePacket_filter_witness :
    routeUpdatePacket (fun v => if jsStrictEqStr v (ascii "c9") then some 9 else none)
      ⟨.json (.obj [(ascii "action", .str (ascii "update")),
                    (ascii "modelKey", .str (ascii "camera")),
                    (ascii "id", .str (ascii "c9"))]),
       .json (.obj [(ascii "isMotionDetected", .bool true)])⟩
      = some (9, .json (.obj [(ascii "isMotionDetected", .bool true)])) :=
  (routeUpdatePacket_filter (fun v => if jsStrictEqStr v (ascii "c9") then some 9 else none)
      ⟨.json (.obj [(ascii "action", .str (ascii "update")),
                    (ascii "modelKey", .str (ascii "camera")),
                    (ascii "id", .str (ascii "c9"))]),
       .json (.obj [(ascii "isMotionDetected", .bool true)])⟩ 9).1.mpr
    ⟨rfl, rfl, rfl, rfl⟩

/-! ## C7: teardown ordering -/

/-- C7: the close handler's visible actions are, in program order,
`clearInterval` of the heartbeat timer, the `Disconnected` notification and
only then the reconnection call; the cancelled timer is no longer active in
the resulting state, so a tick of that timer fires no heartbeat send. -/
theorem onClose_cancels_heartbeat (s : WsState) (t : Nat) (h : s.pingPong = some t) :
    (onClose s).2 = [.clearTimer (some t), .statusNote .disconnected, .scheduleReconnect] ∧
      t ∉ (onClose s).1.activeTimers ∧
      onTick t (onClose s).1 = [] := by
  have hmem : t ∉ (onClose s).1.activeTimers := by
    simp [onClose, h, List.mem_filter]
  exact ⟨by simp [onClose, h], hmem, by simp [onTick, hmem]⟩

/-- C7 witness: a connected state with heartbeat timer 4; after close, timer
4 is inactive and its tick sends nothing. -/
theorem onClose_cancels_heartbeat_witness :
    (onClose
          { eventListener := some 3, eventListenerConfigured := true,
            pingPong := some 4, activeTimers := [4], sockets := [3],
            reconnectScheduled := false, nextId := 5 }).2
        = [.clearTimer (some 4), .statusNote .disconnected, .scheduleReconnect] ∧
      4 ∉ (onClose
          { eventListener := some 3, eventListenerConfigured := true,
            pingPong := some 4, activeTimers := [4], sockets := [3],
            reconnectScheduled := false, nextId := 5 }).1.activeTimers ∧
      onTick 4 (onClose
          { eventListener := some 3, eventListenerConfigured := true,
            pingPong := some 4, activeTimers := [4], sockets := [3],
            reconnectScheduled := false, nextId := 5 }).1 = [] :=
  onClose_cancels_heartbeat _ 4 rfl

/-! ## C9: idempotent connect -/

/-- C9: when a listener already exists, `launchUpdatesListener` returns
`true` immediately, changes nothing and performs no action; in particular
two successive launches from a fresh state leave exactly one socket and one
heartbeat timer. -/
theorem launchUpdatesListener_idempotent :
    (∀ s o, s.eventListener.isSome = true → launchUpdatesListener o s = (true, s, [])) ∧
    (∀ o,
      (launchUpdatesListener o (launchUpdatesListener .ok initState).2.1).1 = true ∧
        (launchUpdatesListener o (launchUpdatesListener .ok initState).2.1).2.1
          = (launchUpdatesListener .ok initState).2.1 ∧
        (launchUpdatesListener .ok initState).2.1.sockets.length = 1 ∧
        (launchUpdatesListener .ok initState).2.1.activeTimers.length = 1) := by
  constructor
  · intro s o h
    simp [launchUpdatesListener, h]
  · intro o
    exact ⟨rfl, rfl, rfl, rfl⟩

/-- C9 witness: a second launch against the state produced by a successful
launch is a no-op returning `true`, even when the would-be constructor
outcome differs. -/
theorem launchUpdatesListener_idempotent_witness :
    launchUpdatesListener .throws
        { eventListener := some 0, eventListenerConfigured := false,
          pingPong := some 1, activeTimers := [1], sockets := [0],
          reconnectScheduled := false, nextId := 2 }
      = (true,
          { eventListener := some 0, eventListenerConfigured := false,
            pingPong := some 1, activeTimers := [1], sockets := [0],
            reconnectScheduled := false, nextId := 2 }, []) :=
  launchUpdatesListener_idempotent.1 _ .throws rfl

/-! ## C10: the return value of `launchUpdatesListener` -/

/-- C10: `launchUpdatesListener` returns `false` only in the branch that
tests the WebSocket constructor's result for falsiness — an outcome JS `new`
cannot produce when the constructor completes; on every other path,
including a thrown and caught constructor error, it returns `true`, so the
caller cannot observe a connection failure through the return value. -/
theorem launchUpdatesListener_returns_true (s : WsState) (o : CtorOutcome) :
    (launchUpdatesListener o s).1 = false ↔ (o = .falsy ∧ s.eventListener = none) := by
  cases he : s.eventListener with
  | some w => simp [launchUpdatesListener, he]
  | none => cases o <;> simp [launchUpdatesListener, he]

/-- C10 witness: a caught constructor exception still yields `true`. -/
theorem launchUpdatesListener_returns_true_witness :
    (launchUpdatesListener .throws initState).1 = true := by
  cases hb : (launchUpdatesListener .throws initState).1
  · exact absurd ((launchUpdatesListener_returns_true initState .throws).mp hb).1 (by decide)
  · rfl

/-! ## C3: recovery after a failed connection attempt -/

/-- C3 counterexample: a synchronous WebSocket-constructor failure from the
fresh state is caught and logged, the call still returns `true`, but the
state is left exactly as it was: no reconnection is scheduled and no
bootstrap wait is entered, so this failed attempt is terminal until some
external trigger. -/
theorem launch_ctor_throw_no_reconnect :
    (launchUpdatesListener .throws initState).1 = true ∧
      (launchUpdatesListener .throws initState).2.1 = initState ∧
      Effect.scheduleReconnect ∉ (launchUpdatesListener .throws initState).2.2 ∧
      (launchUpdatesListener .throws initState).2.1.reconnectScheduled = false := by
  refine ⟨rfl, rfl, ?_, rfl⟩
  decide

/-- C3 amended: a connection failure surfaced through the socket's `close`
event always re-enters the bootstrap-gated loop (the close handler schedules
reconnection unconditionally), and no failure surfaces as a crash (the
constructor-throw path returns `true`); but the constructor-throw path
itself leaves the state untouched and schedules no reconnection. -/
theorem connection_failure_paths (s : WsState) :
    ((onClose s).1.reconnectScheduled = true ∧
        Effect.scheduleReconnect ∈ (onClose s).2) ∧
      ((launchUpdatesListener .throws s).1 = true ∧
        (launchUpdatesListener .throws s).2.1 = s ∧
        Effect.scheduleReconnect ∉ (launchUpdatesListener .throws s).2.2) := by
  refine ⟨⟨rfl, by simp [onClose]⟩, ?_⟩
  cases he : s.eventListener with
  | some w => simp [launchUpdatesListener, he]
  | none => simp [launchUpdatesListener, he]

/-- C3 amended witness: both failure paths evaluated at the fresh state. -/
theorem connection_failure_paths_witness :
    (onClose initState).1.reconnectScheduled = true ∧
      (launchUpdatesListener .throws initState).1 = true :=
  ⟨(connection_failure_paths initState).1.1, (connection_failure_paths initState).2.1⟩

/-! ## C4: encode/decode round trip -/

theorem be32_length (n : Nat) : (be32 n).length = 4 := rfl

theorem readUInt32BE_pre (pre rest : List Nat) (n : Nat) (hn : n < 2 ^ 32)
    (off : Nat) (hoff : off = pre.length) :
    readUInt32BE (pre ++ (be32 n ++ rest)) off = some n := by
  subst hoff
  unfold readUInt32BE
  rw [List.drop_left]
  show some (n / 2 ^ 24 % 256 * 2 ^ 24 + n / 2 ^ 16 % 256 * 2 ^ 16
      + n / 2 ^ 8 % 256 * 2 ^ 8 + n % 256) = some n
  congr 1
  omega

theorem encodeUpdateFrame_length (deflate : List Nat → List Nat) (t f : Nat)
    (c : Bool) (body : List Nat) :
    (encodeUpdateFrame deflate t f c body).length
      = (if c then deflate body else body).length + UPDATE_PACKET_HEADER_SIZE := by
  simp [encodeUpdateFrame, be32, UPDATE_PACKET_HEADER_SIZE]

theorem headerCheck_encodeUpdatePacket (deflate : List Nat → List Nat)
    (serialize : Json → List Nat) (ca cp : Bool) (a : Json) (p : FrameValue)
    (h4 : (if ca then deflate (serialize a) else serialize a).length < 2 ^ 32)
    (h5 : (if cp then deflate (frameBody serialize p)
        else frameBody serialize p).length < 2 ^ 32) :
    headerCheck (encodeUpdatePacket deflate serialize ca cp a p)
      = some ((if ca then deflate (serialize a) else serialize a).length
          + UPDATE_PACKET_HEADER_SIZE) := by
  set wa := if ca then deflate (serialize a) else serialize a with hwa
  set wp := if cp then deflate (frameBody serialize p) else frameBody serialize p with hwp
  have hr4 : readUInt32BE (encodeUpdatePacket deflate serialize ca cp a p) 4
      = some wa.length := by
    have := readUInt32BE_pre [1, 1, if ca then 1 else 0, 0]
      (wa ++ encodeUpdateFrame deflate 2 (payloadFormatOf p) cp (frameBody serialize p))
      wa.length h4 4 rfl
    simpa [encodeUpdatePacket, encodeUpdateFrame, ← hwa, List.append_assoc] using this
  have hrp : readUInt32BE (encodeUpdatePacket deflate serialize ca cp a p)
      (wa.length + UPDATE_PACKET_HEADER_SIZE + 4) = some wp.length := by
    have hpre : (encodeUpdateFrame deflate 1 1 ca (serialize a)
        ++ [2, payloadFormatOf p, if cp then 1 else 0, 0]).length
        = wa.length + UPDATE_PACKET_HEADER_SIZE + 4 := by
      simp [encodeUpdateFrame_length, ← hwa, UPDATE_PACKET_HEADER_SIZE]
    have := readUInt32BE_pre
      (encodeUpdateFrame deflate 1 1 ca (serialize a)
        ++ [2, payloadFormatOf p, if cp then 1 else 0, 0])
      wp wp.length h5 (wa.length + UPDATE_PACKET_HEADER_SIZE + 4) hpre.symm
    simpa [encodeUpdatePacket, encodeUpdateFrame, ← hwa, ← hwp, List.append_assoc]
      using this
  have hlen : (encodeUpdatePacket deflate serialize ca cp a p).length
      = (wa.length + UPDATE_PACKET_HEADER_SIZE) + UPDATE_PACKET_HEADER_SIZE
        + wp.length := by
    simp [encodeUpdatePacket, encodeUpdateFrame_length, ← hwa, ← hwp]
    omega
  unfold headerCheck
  rw [hr4]
  simp only [hrp, hlen]
  simp

theorem encodeUpdatePacket_take (deflate : List Nat → List Nat)
    (serialize : Json → List Nat) (ca cp : Bool) (a : Json) (p : FrameValue) :
    (encodeUpdatePacket deflate serialize ca cp a p).take
        ((if ca then deflate (serialize a) else serialize a).length
          + UPDATE_PACKET_HEADER_SIZE)
      = encodeUpdateFrame deflate 1 1 ca (serialize a) := by
  apply List.take_left'
  rw [encodeUpdateFrame_length]

theorem encodeUpdatePacket_drop (deflate : List Nat → List Nat)
    (serialize : Json → List Nat) (ca cp : Bool) (a : Json) (p : FrameValue) :
    (encodeUpdatePacket deflate serialize ca cp a p).drop
        ((if ca then deflate (serialize a) else serialize a).length
          + UPDATE_PACKET_HEADER_SIZE)
      = encodeUpdateFrame deflate 2 (payloadFormatOf p) cp (frameBody serialize p) := by
  apply List.drop_left'
  rw [encodeUpdateFrame_length]

theorem decodeUpdateFrame_encode_action (inflate : List Nat → Option (List Nat))
    (jsonParse : List Nat → Option Json) (deflate : List Nat → List Nat)
    (serialize : Json → List Nat) (a : Json) (ca : Bool)
    (h3 : ∀ b, inflate (deflate b) = some b)
    (h1 : jsonParse (serialize a) = some a) :
    decodeUpdateFrame inflate jsonParse (encodeUpdateFrame deflate 1 1 ca (serialize a)) 1
      = (.ok (some (.json a)), false) := by
  cases ca with
  | true => simp [decodeUpdateFrame, encodeUpdateFrame, readUInt8, be32,
      UPDATE_PACKET_HEADER_SIZE, h3, h1]
  | false => simp [decodeUpdateFrame, encodeUpdateFrame, readUInt8, be32,
      UPDATE_PACKET_HEADER_SIZE, h1]

theorem decodeUpdateFrame_encode_payload (inflate : List Nat → Option (List Nat))
    (jsonParse : List Nat → Option Json) (deflate : List Nat → List Nat)
    (serialize : Json → List Nat) (p : FrameValue) (cp : Bool)
    (h3 : ∀ b, inflate (deflate b) = some b)
    (h2 : ∀ j, p = .json j → jsonParse (serialize j) = some j) :
    decodeUpdateFrame inflate jsonParse
        (encodeUpdateFrame deflate 2 (payloadFormatOf p) cp (frameBody serialize p)) 2
      = (.ok (some p), false) := by
  cases p with
  | json j =>
    have hj := h2 j rfl
    cases cp with
    | true => simp [decodeUpdateFrame, encodeUpdateFrame, readUInt8, be32,
        UPDATE_PACKET_HEADER_SIZE, payloadFormatOf, frameBody, h3, hj]
    | false => simp [decodeUpdateFrame, encodeUpdateFrame, readUInt8, be32,
        UPDATE_PACKET_HEADER_SIZE, payloadFormatOf, frameBody, hj]
  | text s =>
    cases cp with
    | true => simp [decodeUpdateFrame, encodeUpdateFrame, readUInt8, be32,
        UPDATE_PACKET_HEADER_SIZE, payloadFormatOf, frameBody, h3]
    | false => simp [decodeUpdateFrame, encodeUpdateFrame, readUInt8, be32,
        UPDATE_PACKET_HEADER_SIZE, payloadFormatOf, frameBody]
  | binary b =>
    cases cp with
    | true => simp [decodeUpdateFrame, encodeUpdateFrame, readUInt8, be32,
        UPDATE_PACKET_HEADER_SIZE, payloadFormatOf, frameBody, h3]
    | false => simp [decodeUpdateFrame, encodeUpdateFrame, readUInt8, be32,
        UPDATE_PACKET_HEADER_SIZE, payloadFormatOf, frameBody]

/-- C4 counterexample: the documented-layout packet
`[1,1,0,0,0,0,0,2, 0x7b,0x7d, 2,2,0,0,0,0,0,0]` encodes the action `{}` with
an *empty* text payload.  The empty string is falsy, so the
`!actionFrame || !payloadFrame` guard fires and `decodeUpdatePacket` returns
`null` instead of the original values: the for-every-value round trip
fails. -/
theorem decodeUpdatePacket_falsy_payload_no_roundtrip :
    encodeUpdatePacket id render false false (.obj []) (.text [])
        = [1, 1, 0, 0, 0, 0, 0, 2, 123, 125, 2, 2, 0, 0, 0, 0, 0, 0] ∧
      decodeUpdatePacket Option.some jsParse
          (encodeUpdatePacket id render false false (.obj []) (.text [])) = .ok none ∧
      decodeUpdatePacket Option.some jsParse
          (encodeUpdatePacket id render false false (.obj []) (.text []))
        ≠ .ok (some ⟨.json (.obj []), .text []⟩) :=
  ⟨rfl, rfl, fun h => Option.noConfusion (Except.ok.inj h)⟩

/-- C4 amended: for every action value and every payload variant (JSON,
text, binary) and both compression states of each sub-frame, provided the
decoded action and payload are JS-truthy (so not an empty text payload and
not a JSON `null`/`false`/`0`/empty string — binary buffers are always
truthy), encoding a synthetic packet with the documented header layout and
decoding it with `decodeUpdatePacket` returns exactly the original action
and payload, given that the serializer and parser invert each other on the
values used, inflate inverts deflate, and the body lengths fit in an
unsigned 32-bit field; a falsy decoded action or payload is instead
rejected by the `!actionFrame || !payloadFrame` guard and the packet
decodes to `null`. -/
theorem decodeUpdatePacket_encodeUpdatePacket (inflate : List Nat → Option (List Nat))
    (jsonParse : List Nat → Option Json) (deflate : List Nat → List Nat)
    (serialize : Json → List Nat) (a : Json) (p : FrameValue) (ca cp : Bool)
    (h1 : jsonParse (serialize a) = some a)
    (h2 : ∀ j, p = .json j → jsonParse (serialize j) = some j)
    (h3 : ∀ b, inflate (deflate b) = some b)
    (h4 : (if ca then deflate (serialize a) else serialize a).length < 2 ^ 32)
    (h5 : (if cp then deflate (frameBody serialize p)
        else frameBody serialize p).length < 2 ^ 32) :
    decodeUpdatePacket inflate jsonParse (encodeUpdatePacket deflate serialize ca cp a p)
      = (if (FrameValue.json a).jsTruthy && p.jsTruthy
          then .ok (some ⟨.json a, p⟩) else .ok none) := by
  unfold decodeUpdatePacket
  rw [headerCheck_encodeUpdatePacket deflate serialize ca cp a p h4 h5]
  simp only [encodeUpdatePacket_take, encodeUpdatePacket_drop,
    decodeUpdateFrame_encode_action inflate jsonParse deflate serialize a ca h3 h1,
    decodeUpdateFrame_encode_payload inflate jsonParse deflate serialize p cp h3 h2]

/-- C4 amended witness: the truthy action `{}` and the truthy text payload
`"hi"`, with a raw action frame and a deflated payload frame, round-trip
through the concrete JSON model with the identity compressor. -/
theorem decodeUpdatePacket_encodeUpdatePacket_witness :
    decodeUpdatePacket Option.some jsParse
        (encodeUpdatePacket id render false true (.obj []) (.text (ascii "hi")))
      = .ok (some ⟨.json (.obj []), .text (ascii "hi")⟩) :=
  (decodeUpdatePacket_encodeUpdatePacket Option.some jsParse id render
    (.obj []) (.text (ascii "hi")) false true rfl
    (fun j h => FrameValue.noConfusion h) (fun b => rfl) (by decide) (by decide)).trans rfl

end Protect









